import Mathlib

set_option maxHeartbeats 1600000

/- Verification of the invoice reconciliation and scoring engine
   (`services/invoice_reconciliation.py`).

   Modelling conventions:
   * Python numbers are modelled as exact rationals (`ℚ`); every claim
     settled here concerns threshold/comparison logic whose intended
     semantics is exact arithmetic.
   * `round(x, n)` is modelled by round-half-to-even on rationals
     (Python's rounding mode); none of the claims hinges on the exact
     behaviour at half-way points.
   * The one external primitive used by the engine,
     `difflib.SequenceMatcher(None, a, b).ratio()`, is standard-library
     code outside this repository.  It is modelled as an explicit
     parameter `sim : String → String → ℚ`; theorems that need facts
     about it assume only its documented properties (range `[0,1]`,
     value `1` on equal inputs). -/

/-- Round-half-to-even of a rational to an integer (Python `round`). -/
def roundHalfEven (q : ℚ) : ℤ :=
  if q - ⌊q⌋ < 1/2 then ⌊q⌋
  else if 1/2 < q - ⌊q⌋ then ⌈q⌉
  else if ⌊q⌋ % 2 = 0 then ⌊q⌋ else ⌊q⌋ + 1

/-- Python `round(q, ndigits)` on exact rationals. -/
def pyRound (ndigits : ℕ) (q : ℚ) : ℚ :=
  (roundHalfEven (q * 10 ^ ndigits) : ℚ) / 10 ^ ndigits

/-- The four discrepancy severities (`get_discrepancy_severity` returns
the corresponding strings in the source). -/
inductive Severity where
  | LOW
  | MEDIUM
  | HIGH
  | CRITICAL
deriving DecidableEq, Repr

/-- `get_discrepancy_severity` (invoice_reconciliation.py, lines 169-178). -/
def get_discrepancy_severity (percent_diff : ℚ) : Severity :=
  if percent_diff < 1 then .LOW
  else if percent_diff < 5 then .MEDIUM
  else if percent_diff < 10 then .HIGH
  else .CRITICAL

/-- `fuzzy_string_match` (lines 132-138).  The call to
`SequenceMatcher(None, s1, s2).ratio()` on the trimmed, lower-cased
strings is the external primitive `sim`; `None` inputs yield `0.0`
without consulting it. -/
def fuzzy_string_match (sim : String → String → ℚ) :
    Option String → Option String → ℚ
  | some s1, some s2 => sim s1.trim.toLower s2.trim.toLower
  | _, _ => 0

/-- The (unrounded) `difference_percent` computed by `fuzzy_number_match`
for two non-null numbers (lines 151-157): `difference = |n1 - n2|`,
`base_value = max(|n1|, |n2|)`. -/
def numDiffPercent (n1 n2 : ℚ) : ℚ :=
  if max |n1| |n2| = 0 then (if |n1 - n2| = 0 then 0 else 100)
  else |n1 - n2| / max |n1| |n2| * 100

/-- Result dictionary of `fuzzy_number_match`. -/
structure NumMatchResult where
  is_match : Bool
  difference : Option ℚ
  difference_percent : Option ℚ
  within_tolerance : Bool
deriving DecidableEq, Repr

/-- `fuzzy_number_match` (lines 141-166).  `difference_percent` is stored
rounded to two digits; `within_tolerance` is decided on the unrounded
value. -/
def fuzzy_number_match (num1 num2 : Option ℚ) (tolerance_percent : ℚ) :
    NumMatchResult :=
  match num1, num2 with
  | some n1, some n2 =>
    let dp := numDiffPercent n1 n2
    let wt := decide (dp ≤ tolerance_percent)
    { is_match := wt
      difference := some |n1 - n2|
      difference_percent := some (pyRound 2 dp)
      within_tolerance := wt }
  | _, _ =>
    { is_match := false
      difference := none
      difference_percent := none
      within_tolerance := false }

/-- Canonical line-item shape shared by extracted and mapping records
(the fields read by `compare_line_items_fuzzy` and `find_fuzzy_matches`).
Absent dictionary keys and `None` values are both `none`. -/
structure LineItem where
  line_id : Option ℕ
  campaign_name : Option String
  insertion_order_id : Option String
  ad_unit : Option String
  format : Option String
  geo : Option String
  booked_impressions : Option ℚ
  billed_impressions : Option ℚ
  clicks : Option ℚ
  net_cost : Option ℚ
  gross_revenue : Option ℚ
  net_revenue : Option ℚ
deriving DecidableEq, Repr

/-- A field-level discrepancy dictionary appended by
`compare_line_items_fuzzy`: numeric fields carry difference data
(lines 229-236), text fields carry a similarity (lines 246-253). -/
inductive FieldDiscrepancy where
  | num (field : String) (extracted_value mapping_value : ℚ)
        (difference difference_percent : Option ℚ) (severity : Severity)
  | text (field : String) (extracted_value mapping_value : Option String)
         (similarity : ℚ) (severity : Severity)
deriving DecidableEq, Repr

/-- The `severity` entry of a discrepancy dictionary. -/
def FieldDiscrepancy.severity : FieldDiscrepancy → Severity
  | .num _ _ _ _ _ s => s
  | .text _ _ _ _ s => s

/-- Return dictionary of `compare_line_items_fuzzy` (lines 263-268). -/
structure MatchResult where
  overall_score : ℚ
  matched_fields : List String
  discrepancies : List FieldDiscrepancy
  field_scores : List (String × ℚ)
deriving DecidableEq, Repr

/-- The `numerical_fields` weight table (lines 208-215), in the source's
insertion order, with each field's accessor. -/
def numerical_fields : List (String × (LineItem → Option ℚ) × ℚ) :=
  [("booked_impressions", LineItem.booked_impressions, 2),
   ("billed_impressions", LineItem.billed_impressions, 5/2),
   ("clicks", LineItem.clicks, 3/2),
   ("net_cost", LineItem.net_cost, 5/2),
   ("gross_revenue", LineItem.gross_revenue, 2),
   ("net_revenue", LineItem.net_revenue, 2)]

/-- The `text_fields` weight table (line 239). -/
def text_fields : List (String × (LineItem → Option String) × ℚ) :=
  [("ad_unit", LineItem.ad_unit, 1),
   ("format", LineItem.format, 1),
   ("geo", LineItem.geo, 1)]

/-- One iteration of the numeric-field loop of `compare_line_items_fuzzy`
(lines 217-236), returning the `(scores, matched_fields, discrepancies)`
entries it appends.  `difference_percent` is always present in the
dictionary in these branches; `getD 0` models the direct dict access. -/
def compareNumericField (number_tolerance : ℚ) (extracted mapping : LineItem)
    (fw : String × (LineItem → Option ℚ) × ℚ) :
    List (String × ℚ × ℚ) × List String × List FieldDiscrepancy :=
  match fw.2.1 extracted, fw.2.1 mapping with
  | some ext_value, some map_value =>
    let mr := fuzzy_number_match (some ext_value) (some map_value) number_tolerance
    if mr.within_tolerance then
      ([(fw.1, 1 - mr.difference_percent.getD 0 / 100, fw.2.2)], [fw.1], [])
    else
      ([], [], [.num fw.1 ext_value map_value mr.difference mr.difference_percent
                  (get_discrepancy_severity (mr.difference_percent.getD 0))])
  | _, _ => ([], [], [])

/-- One iteration of the text-field loop (lines 241-253). -/
def compareTextField (sim : String → String → ℚ) (string_threshold : ℚ)
    (extracted mapping : LineItem)
    (fw : String × (LineItem → Option String) × ℚ) :
    List (String × ℚ × ℚ) × List String × List FieldDiscrepancy :=
  if string_threshold ≤ fuzzy_string_match sim (fw.2.1 extracted) (fw.2.1 mapping) then
    ([(fw.1, fuzzy_string_match sim (fw.2.1 extracted) (fw.2.1 mapping), fw.2.2)],
     [fw.1], [])
  else if 1/2 < fuzzy_string_match sim (fw.2.1 extracted) (fw.2.1 mapping) then
    ([], [],
     [.text fw.1 (fw.2.1 extracted) (fw.2.1 mapping)
        (pyRound 2 (fuzzy_string_match sim (fw.2.1 extracted) (fw.2.1 mapping))) .LOW])
  else ([], [], [])

/-- The campaign-name block (lines 189-196, weight 3.0, threshold
`string_threshold`). -/
def campaignPart (sim : String → String → ℚ) (string_threshold : ℚ)
    (extracted mapping : LineItem) : List (String × ℚ × ℚ) × List String :=
  if string_threshold ≤ fuzzy_string_match sim extracted.campaign_name mapping.campaign_name
  then ([("campaign_name",
          fuzzy_string_match sim extracted.campaign_name mapping.campaign_name, 3)],
        ["campaign_name"])
  else ([], [])

/-- The insertion-order block (lines 198-205, weight 3.0, fixed 0.9
threshold). -/
def ioPart (sim : String → String → ℚ) (extracted mapping : LineItem) :
    List (String × ℚ × ℚ) × List String :=
  if 9/10 ≤ fuzzy_string_match sim extracted.insertion_order_id mapping.insertion_order_id
  then ([("insertion_order_id",
          fuzzy_string_match sim extracted.insertion_order_id mapping.insertion_order_id, 3)],
        ["insertion_order_id"])
  else ([], [])

/-- The `scores` list accumulated by `compare_line_items_fuzzy`, in the
source's append order. -/
def scoresOf (sim : String → String → ℚ) (st nt : ℚ) (e m : LineItem) :
    List (String × ℚ × ℚ) :=
  (campaignPart sim st e m).1 ++ (ioPart sim e m).1
    ++ ((numerical_fields.map (compareNumericField nt e m)).map (·.1)).flatten
    ++ ((text_fields.map (compareTextField sim st e m)).map (·.1)).flatten

/-- The `matched_fields` list accumulated by `compare_line_items_fuzzy`. -/
def matchedOf (sim : String → String → ℚ) (st nt : ℚ) (e m : LineItem) :
    List String :=
  (campaignPart sim st e m).2 ++ (ioPart sim e m).2
    ++ ((numerical_fields.map (compareNumericField nt e m)).map (·.2.1)).flatten
    ++ ((text_fields.map (compareTextField sim st e m)).map (·.2.1)).flatten

/-- The `discrepancies` list accumulated by `compare_line_items_fuzzy`
(numeric loop first, then text loop). -/
def discsOf (sim : String → String → ℚ) (st nt : ℚ) (e m : LineItem) :
    List FieldDiscrepancy :=
  ((numerical_fields.map (compareNumericField nt e m)).map (·.2.2)).flatten
    ++ ((text_fields.map (compareTextField sim st e m)).map (·.2.2)).flatten

/-- `compare_line_items_fuzzy` (lines 181-268). -/
def compare_line_items_fuzzy (sim : String → String → ℚ)
    (extracted mapping : LineItem) (string_threshold number_tolerance : ℚ) :
    MatchResult :=
  { overall_score :=
      pyRound 3
        (if (scoresOf sim string_threshold number_tolerance extracted mapping).isEmpty
         then 0
         else ((scoresOf sim string_threshold number_tolerance extracted mapping).map
                  (fun s => s.2.1 * s.2.2)).sum
              / ((scoresOf sim string_threshold number_tolerance extracted mapping).map
                  (fun s => s.2.2)).sum)
    matched_fields := matchedOf sim string_threshold number_tolerance extracted mapping
    discrepancies := discsOf sim string_threshold number_tolerance extracted mapping
    field_scores :=
      (scoresOf sim string_threshold number_tolerance extracted mapping).map
        (fun s => (s.1, pyRound 2 s.2.1)) }

/-- A concrete similarity primitive used to instantiate closed
statements: `1` on equal strings, `0` otherwise (a member of the
hypothesis class of `sim`; difflib's ratio also satisfies it on the
inputs used). -/
def simEq : String → String → ℚ := fun a b => if a = b then 1 else 0

/-- A degenerate similarity primitive (constant `0`) used in closed
statements whose truth does not depend on `sim`. -/
def simZero : String → String → ℚ := fun _ _ => 0

/-- Line item with every field `None` except `booked_impressions = 5`. -/
def itemBookedFive : LineItem :=
  ⟨none, none, none, none, none, none, some 5, none, none, none, none, none⟩

/-- Line item with every field `None` except `booked_impressions = -5`. -/
def itemBookedNegFive : LineItem :=
  ⟨none, none, none, none, none, none, some (-5), none, none, none, none, none⟩

/-- Line item with every field `None`. -/
def itemAllNone : LineItem :=
  ⟨none, none, none, none, none, none, none, none, none, none, none, none⟩

/-- Line item with `campaign_name` set and one numeric field, used to
instantiate the identical-pair clause. -/
def itemCampaignX : LineItem :=
  ⟨some 1, some "X", none, none, none, none, some 10, none, none, none, none, none⟩

/-- Scenario A extracted item: campaign "Summer Sale", billed 1,000,000. -/
def scenarioA_extracted : LineItem :=
  ⟨some 1, some "Summer Sale", none, none, none, none,
   none, some 1000000, none, none, none, none⟩

/-- Scenario A mapping item: campaign "Summer Sale", billed 950,000. -/
def scenarioA_mapping : LineItem :=
  ⟨some 1, some "Summer Sale", none, none, none, none,
   none, some 950000, none, none, none, none⟩

/-- A normalized mapping record as consumed by `find_fuzzy_matches`:
its `_source_file` annotation and its `line_items`. -/
structure MappingRecord where
  source_file : String
  line_items : List LineItem
deriving DecidableEq, Repr

/-- The `best_match` dictionary built in `find_fuzzy_matches`
(lines 298-305). -/
structure BestMatch where
  mapping_file : String
  extracted_line : Option ℕ
  mapping_line : Option ℕ
  campaign : Option String
  overall_score : ℚ
  match_details : MatchResult
deriving DecidableEq, Repr

/-- A `no_match_found` entry (lines 318-324); the source's `io` key is
called `insertion_order` here. -/
structure NoMatchEntry where
  extracted_line : Option ℕ
  campaign : Option String
  insertion_order : Option String
  best_score : ℚ
  reason : String
deriving DecidableEq, Repr

/-- The `results` dictionary of `find_fuzzy_matches` (lines 275-279).  A
`potential_discrepancies` entry is the best-match dictionary together
with its (top-level) `discrepancies` list. -/
structure ReconResults where
  fuzzy_matches : List BestMatch
  potential_discrepancies : List (BestMatch × List FieldDiscrepancy)
  no_match_found : List NoMatchEntry
deriving DecidableEq, Repr

/-- The extracted invoice data as consumed by `find_fuzzy_matches`
(only `line_items` is read). -/
structure ExtractedData where
  line_items : List LineItem
deriving DecidableEq, Repr

/-- The best-match dictionary for extracted item `e` and candidate
`c = (mapping record, mapping line item)` (lines 298-305). -/
def mkBestMatch (sim : String → String → ℚ) (st nt : ℚ) (e : LineItem)
    (c : MappingRecord × LineItem) : BestMatch :=
  { mapping_file := c.1.source_file
    extracted_line := e.line_id
    mapping_line := c.2.line_id
    campaign := e.campaign_name
    overall_score := (compare_line_items_fuzzy sim e c.2 st nt).overall_score
    match_details := compare_line_items_fuzzy sim e c.2 st nt }

/-- Candidate score: the `overall_score` of comparing extracted item `e`
with candidate `c`. -/
def candScore (sim : String → String → ℚ) (st nt : ℚ) (e : LineItem)
    (c : MappingRecord × LineItem) : ℚ :=
  (compare_line_items_fuzzy sim e c.2 st nt).overall_score

/-- One step of the `best_match` / `best_score` tracking inside the
candidate loops (lines 296-305): replace the running best exactly when
the new score is strictly greater. -/
def stepBest (sim : String → String → ℚ) (st nt : ℚ) (e : LineItem)
    (acc : Option BestMatch × ℚ) (c : MappingRecord × LineItem) :
    Option BestMatch × ℚ :=
  if acc.2 < candScore sim st nt e c
  then (some (mkBestMatch sim st nt e c), candScore sim st nt e c)
  else acc

/-- The nested candidate loops of `find_fuzzy_matches` (lines 287-305):
iterate over mapping records, then over their line items, starting from
`best_match = None`, `best_score = 0`. -/
def findBest (sim : String → String → ℚ) (st nt : ℚ) (e : LineItem)
    (mapping_data : List MappingRecord) : Option BestMatch × ℚ :=
  mapping_data.foldl
    (fun acc mapping =>
      mapping.line_items.foldl
        (fun acc map_item => stepBest sim st nt e acc (mapping, map_item)) acc)
    (none, 0)

/-- The candidate list in iteration order: mapping records in order,
then their line items in order (the flattening of the two loops). -/
def candList (mapping_data : List MappingRecord) :
    List (MappingRecord × LineItem) :=
  mapping_data.flatMap (fun mapping => mapping.line_items.map (fun li => (mapping, li)))

/-- The per-item contribution of one extracted line item to the three
result buckets (lines 283-324). -/
def itemBuckets (sim : String → String → ℚ) (st nt : ℚ)
    (mapping_data : List MappingRecord) (ext_item : LineItem) :
    List BestMatch × List (BestMatch × List FieldDiscrepancy) × List NoMatchEntry :=
  match findBest sim st nt ext_item mapping_data with
  | (some best_match, best_score) =>
    if 7/10 ≤ best_score then
      ([best_match],
       if best_match.match_details.discrepancies.isEmpty then []
       else [(best_match, best_match.match_details.discrepancies)],
       [])
    else
      ([], [],
       [{ extracted_line := ext_item.line_id
          campaign := ext_item.campaign_name
          insertion_order := ext_item.insertion_order_id
          best_score := best_score
          reason := "No strong match found in mapping files" }])
  | (none, _) => ([], [], [])

/-- `find_fuzzy_matches` (lines 271-326): each extracted item appends its
contribution to the three buckets in order. -/
def find_fuzzy_matches (sim : String → String → ℚ)
    (extracted_data : ExtractedData) (mapping_data : List MappingRecord)
    (string_threshold number_tolerance : ℚ) : ReconResults :=
  { fuzzy_matches :=
      (extracted_data.line_items.map
        (fun e => (itemBuckets sim string_threshold number_tolerance mapping_data e).1)).flatten
    potential_discrepancies :=
      (extracted_data.line_items.map
        (fun e => (itemBuckets sim string_threshold number_tolerance mapping_data e).2.1)).flatten
    no_match_found :=
      (extracted_data.line_items.map
        (fun e => (itemBuckets sim string_threshold number_tolerance mapping_data e).2.2)).flatten }

/-- Follows the spec's words (§4.4): "keep the candidate with the
strictly greatest `overallScore` seen so far (ties keep the
first-encountered candidate)" — the first candidate attaining the
maximal score of the list. -/
def specBestCandidate {α : Type} (score : α → ℚ) : List α → Option α
  | [] => none
  | c :: cs =>
    match specBestCandidate score cs with
    | none => some c
    | some d => if score c < score d then some d else some c

/-- A one-candidate corpus whose single comparison scores `0.0`. -/
def zeroScoreMapping : MappingRecord :=
  { source_file := "mapping_1.json", line_items := [itemAllNone] }

/-- The `severity_counts` dictionary of `calculate_trust_score`
(line 358). -/
structure SevCounts where
  critical : ℕ
  high : ℕ
  medium : ℕ
  low : ℕ
deriving DecidableEq, Repr

/-- `severity_counts[severity] += 1` (line 364). -/
def bumpSeverity (c : SevCounts) : Severity → SevCounts
  | .CRITICAL => { c with critical := c.critical + 1 }
  | .HIGH => { c with high := c.high + 1 }
  | .MEDIUM => { c with medium := c.medium + 1 }
  | .LOW => { c with low := c.low + 1 }

/-- The severity-counting loops of `calculate_trust_score`
(lines 360-364): iterate over `potential_discrepancies`, then over each
entry's `discrepancies`.  (In the typed model every severity is one of
the four counted values, so the `in severity_counts` guard always
holds.) -/
def countSeverities (pd : List (BestMatch × List FieldDiscrepancy)) : SevCounts :=
  pd.foldl (fun c disc => disc.2.foldl (fun c fd => bumpSeverity c fd.severity) c)
    ⟨0, 0, 0, 0⟩

/-- The `severity_weights` table (lines 346-351). -/
def severityWeight : Severity → ℤ
  | .CRITICAL => -15
  | .HIGH => -8
  | .MEDIUM => -4
  | .LOW => -1

/-- Look up a severity's count (dict subscript). -/
def SevCounts.get (c : SevCounts) : Severity → ℕ
  | .CRITICAL => c.critical
  | .HIGH => c.high
  | .MEDIUM => c.medium
  | .LOW => c.low

/-- Return dictionary of `calculate_trust_score` (lines 398-407). -/
structure TrustScore where
  score : ℚ
  level : String
  color : String
  severity_breakdown : SevCounts
  total_discrepancies : ℕ
  successful_matches : ℕ
  total_items : ℕ
  match_rate : ℚ
deriving DecidableEq, Repr

/-- `calculate_trust_score` (lines 333-407). -/
def calculate_trust_score (fm : ReconResults) : TrustScore :=
  let total_items := fm.fuzzy_matches.length
  let severity_counts := countSeverities fm.potential_discrepancies
  let total_deduction : ℤ :=
    ([Severity.CRITICAL, Severity.HIGH, Severity.MEDIUM, Severity.LOW].map
      (fun s => (severity_counts.get s : ℤ) * severityWeight s)).sum
  let successful_matches :=
    (fm.fuzzy_matches.filter (fun m => decide (9/10 ≤ m.overall_score))).length
  let match_bonus : ℤ := successful_matches * 2
  let trust_score : ℤ := 100 + total_deduction + match_bonus
  let clamped : ℤ := max 0 (min 100 trust_score)
  { score := pyRound 2 (clamped : ℚ)
    level :=
      if 90 ≤ clamped then "EXCELLENT"
      else if 75 ≤ clamped then "GOOD"
      else if 60 ≤ clamped then "FAIR"
      else if 40 ≤ clamped then "POOR"
      else "CRITICAL"
    color :=
      if 90 ≤ clamped then "green"
      else if 75 ≤ clamped then "blue"
      else if 60 ≤ clamped then "yellow"
      else if 40 ≤ clamped then "orange"
      else "red"
    severity_breakdown := severity_counts
    total_discrepancies :=
      severity_counts.critical + severity_counts.high
        + severity_counts.medium + severity_counts.low
    successful_matches := successful_matches
    total_items := total_items
    match_rate :=
      if 0 < total_items
      then pyRound 2 ((successful_matches : ℚ) / total_items * 100)
      else 0 }

/-- All field discrepancies of a result set, flattened. -/
def flatDiscrepancies (fm : ReconResults) : List FieldDiscrepancy :=
  (fm.potential_discrepancies.map Prod.snd).flatten

/-- Follows the spec's words (§4.5): the number of individual
field-discrepancy occurrences of severity `s`. -/
def specSevCount (fm : ReconResults) (s : Severity) : ℕ :=
  (flatDiscrepancies fm).countP (fun d => decide (d.severity = s))

/-- Follows the spec's words (§4.5): matches with score ≥ 0.9. -/
def specHighConfidence (fm : ReconResults) : ℕ :=
  fm.fuzzy_matches.countP (fun m => decide (9/10 ≤ m.overall_score))

/-- Follows the spec's words (§4.5):
`clamp(100 + Σ severityWeight·count + 2·highConfidence, 0, 100)`. -/
def specTrustScore (fm : ReconResults) : ℚ :=
  ((max 0 (min 100
    (100 + ((-15) * specSevCount fm .CRITICAL + (-8) * specSevCount fm .HIGH
            + (-4) * specSevCount fm .MEDIUM + (-1) * specSevCount fm .LOW)
         + 2 * specHighConfidence fm)) : ℤ) : ℚ)

/-- Follows the spec's words (§4.5):
`round(100·highConfidenceMatches/totalMatches, 2)`, `0` if no matches. -/
def specMatchRate (fm : ReconResults) : ℚ :=
  if fm.fuzzy_matches.length = 0 then 0
  else pyRound 2 (100 * specHighConfidence fm / fm.fuzzy_matches.length)

/-- A minimal best-match dictionary used to build concrete result sets. -/
def bmSample : BestMatch :=
  { mapping_file := "mapping_1.json", extracted_line := none,
    mapping_line := none, campaign := none, overall_score := 0,
    match_details := { overall_score := 0, matched_fields := [],
                       discrepancies := [], field_scores := [] } }

/-- A CRITICAL field discrepancy. -/
def fdCritical : FieldDiscrepancy :=
  .num "net_cost" 1 2 none none .CRITICAL

/-- The dynamic (JSON-shaped) value domain over which `parse_number` /
`parse_currency` operate: Python `None`, booleans, numbers, strings,
lists and dicts. -/
inductive PyVal where
  | null
  | bool (b : Bool)
  | num (q : ℚ)
  | str (s : String)
  | list (l : List PyVal)
  | dict (l : List (String × PyVal))

/-- Python exception classes relevant to the modelled code paths. -/
inductive PyErr where
  | valueError
  | typeError
  | attributeError
  | keyError
  | readFailure
deriving DecidableEq, Repr

/-- Digit run to a natural number. -/
def digitsVal (l : List Char) : ℕ :=
  l.foldl (fun n c => 10 * n + (c.toNat - 48)) 0

/-- Model of the decimal-literal fragment of Python's `float()` string
parsing: optional surrounding whitespace, optional sign, digits with an
optional decimal point, optional exponent.  (`inf`/`nan`/underscore
literals are outside the rational model and outside every claim; any
string `float()` rejects is rejected here.) -/
def pyFloatOfString (s : String) : Option ℚ :=
  let t := s.trim
  let (sgn, body) : ℚ × String :=
    if t.startsWith "-" then (-1, t.drop 1)
    else if t.startsWith "+" then (1, t.drop 1)
    else (1, t)
  let parseMantissa : String → Option ℚ := fun m =>
    match m.splitOn "." with
    | [i] =>
      if i.toList ≠ [] ∧ i.toList.all Char.isDigit
      then some (digitsVal i.toList) else none
    | [i, f] =>
      if (i.toList ≠ [] ∨ f.toList ≠ [])
          ∧ i.toList.all Char.isDigit ∧ f.toList.all Char.isDigit
      then some ((digitsVal i.toList : ℚ)
        + (digitsVal f.toList : ℚ) / 10 ^ f.toList.length)
      else none
    | _ => none
  let parseExp : String → Option ℤ := fun x =>
    let (esgn, ebody) : ℤ × String :=
      if x.startsWith "-" then (-1, x.drop 1)
      else if x.startsWith "+" then (1, x.drop 1)
      else (1, x)
    if ebody.toList ≠ [] ∧ ebody.toList.all Char.isDigit
    then some (esgn * digitsVal ebody.toList) else none
  match (body.map Char.toLower).splitOn "e" with
  | [m] => (parseMantissa m).map (fun q => sgn * q)
  | [m, x] =>
    (parseMantissa m).bind (fun q =>
      (parseExp x).map (fun e => sgn * q * (10:ℚ) ^ e))
  | _ => none

/-- Python's `float(value)` builtin on the modelled value domain:
numbers and booleans convert, strings parse or raise `ValueError`,
everything else (including `None`, lists and dicts) raises
`TypeError`. -/
def pyFloat : PyVal → Except PyErr ℚ
  | .bool b => .ok (if b then 1 else 0)
  | .num q => .ok q
  | .str s =>
    match pyFloatOfString s with
    | some q => .ok q
    | none => .error .valueError
  | _ => .error .typeError

/-- `parse_number` (lines 103-112): `None` maps to `None`; strings have
commas stripped before `float()`; only `ValueError` and
`AttributeError` are caught (mapping a failure to `None`) — any other
exception (`float()` raises `TypeError` on lists/dicts) propagates. -/
def parse_number (value : PyVal) : Except PyErr (Option ℚ) :=
  match value with
  | .null => .ok none
  | v =>
    let attempt : Except PyErr ℚ :=
      match v with
      | .str s => pyFloat (.str (s.replace "," ""))
      | w => pyFloat w
    match attempt with
    | .ok q => .ok (some q)
    | .error .valueError => .ok none
    | .error .attributeError => .ok none
    | .error e => .error e

/-- `parse_currency` (lines 115-125): like `parse_number` but stripping
`$`, commas and surrounding whitespace from strings. -/
def parse_currency (value : PyVal) : Except PyErr (Option ℚ) :=
  match value with
  | .null => .ok none
  | v =>
    let attempt : Except PyErr ℚ :=
      match v with
      | .str s => pyFloat (.str (((s.replace "$" "").replace "," "").trim))
      | w => pyFloat w
    match attempt with
    | .ok q => .ok (some q)
    | .error .valueError => .ok none
    | .error .attributeError => .ok none
    | .error e => .error e

/-- A historical discrepancy-report CSV artifact: its file name, its
column set, and its rows (each row an association list from column name
to cell value; an absent column in a row models a NaN cell after
pandas `concat`). -/
structure CsvFile where
  name : String
  columns : List String
  rows : List (List (String × String))
deriving DecidableEq, Repr

/-- Cell lookup by column name. -/
def cellValue (row : List (String × String)) (col : String) : Option String :=
  (row.find? (fun kv => kv.1 == col)).map (·.2)

/-- One `vendor_scores` entry (lines 548-560). -/
structure VendorScore where
  vendor_name : String
  score : ℚ
  grade : String
  total_discrepancies : ℕ
  critical : ℕ
  high : ℕ
  medium : ℕ
  low : ℕ
  reports_analyzed : ℕ
deriving DecidableEq, Repr

/-- Return dictionary of `calculate_vendor_score` (message cases and the
success case, lines 474-569). -/
structure VendorScoreResult where
  message : Option String
  total_vendors : ℕ
  total_reports_analyzed : ℕ
  vendor_scores : List VendorScore
deriving DecidableEq, Repr

/-- First-occurrence-order deduplication (pandas `Series.unique`). -/
def dedupFirst (l : List String) : List String :=
  l.foldl (fun acc x => if x ∈ acc then acc else acc ++ [x]) []

/-- The `reports_analyzed` re-read (line 559):
`len([f for f in csv_files if vendor in pd.read_csv(f)['Vendor Name'].values])`.
Every file in the corpus is re-read — including files previously skipped
for lacking the column — and subscripting a frame without a
`Vendor Name` column raises `KeyError`; a file that fails to parse
raises whatever `read_csv` raises.  Neither is inside a `try`. -/
def countReportsContaining (vendor : String)
    (csv_files : List (Except Unit CsvFile)) : Except PyErr ℕ := do
  let flags ← csv_files.mapM (fun fr =>
    match fr with
    | .error _ => (.error .readFailure : Except PyErr Bool)
    | .ok df =>
      if "Vendor Name" ∈ df.columns
      then .ok (decide (some vendor ∈ df.rows.map (fun r => cellValue r "Vendor Name")))
      else .error .keyError)
  pure (flags.countP id)

/-- `calculate_vendor_score` (lines 451-569).  The filesystem boundary is
modelled by the `csv_files` parameter: the outcome of `pd.read_csv` on
each `discrepancy_report_*.csv` of the output folder, in glob order (the
folder-missing early return is outside this boundary).  The body is in
an exception monad because the `reports_analyzed` computation can
raise. -/
def calculate_vendor_score (vendor_name : Option String)
    (csv_files : List (Except Unit CsvFile)) :
    Except PyErr VendorScoreResult := do
  if csv_files.isEmpty then
    return { message := some "No discrepancy reports found",
             total_vendors := 0, total_reports_analyzed := 0, vendor_scores := [] }
  let all_data := csv_files.filterMap (fun fr =>
    match fr with
    | .ok df => if "Vendor Name" ∈ df.columns then some df else none
    | .error _ => none)
  if all_data.isEmpty then
    return { message := some "No valid CSV data with Vendor Name column found",
             total_vendors := 0, total_reports_analyzed := 0, vendor_scores := [] }
  let combined := (all_data.map (·.rows)).flatten
  let filtered :=
    match vendor_name with
    | some v => combined.filter (fun r => cellValue r "Vendor Name" == some v)
    | none => combined
  match vendor_name with
  | some v =>
    if filtered.isEmpty then
      return { message := some ("No data found for vendor: " ++ v),
               total_vendors := 0, total_reports_analyzed := 0, vendor_scores := [] }
  | none => pure ()
  let vendors := dedupFirst (filtered.filterMap (fun r => cellValue r "Vendor Name"))
  let vendor_scores ← vendors.mapM (fun vendor => do
    let vendor_data := filtered.filter (fun r => cellValue r "Vendor Name" == some vendor)
    let total_discrepancies := vendor_data.length
    let sevOf : String → ℕ := fun s =>
      (vendor_data.filterMap (fun r => cellValue r "Severity")).countP (fun x => x == s)
    let deductions : ℤ :=
      (sevOf "CRITICAL" : ℤ) * (-15) + (sevOf "HIGH" : ℤ) * (-8)
        + (sevOf "MEDIUM" : ℤ) * (-4) + (sevOf "LOW" : ℤ) * (-1)
    let vendor_score : ℤ := max 0 (min 100 (100 + deductions))
    let grade :=
      if 90 ≤ vendor_score then "A (Excellent)"
      else if 75 ≤ vendor_score then "B (Good)"
      else if 60 ≤ vendor_score then "C (Fair)"
      else if 40 ≤ vendor_score then "D (Poor)"
      else "F (Critical)"
    let reports_analyzed ← countReportsContaining vendor csv_files
    pure { vendor_name := vendor
           score := pyRound 2 (vendor_score : ℚ)
           grade := grade
           total_discrepancies := total_discrepancies
           critical := sevOf "CRITICAL"
           high := sevOf "HIGH"
           medium := sevOf "MEDIUM"
           low := sevOf "LOW"
           reports_analyzed := reports_analyzed : VendorScore })
  let sorted := vendor_scores.mergeSort (fun a b => b.score ≤ a.score)
  return { message := none
           total_vendors := sorted.length
           total_reports_analyzed := csv_files.length
           vendor_scores := sorted }

/-- A well-formed historical report with the `Vendor Name` column. -/
def reportValid : CsvFile :=
  { name := "discrepancy_report_1.csv"
    columns := ["Vendor Name", "Severity"]
    rows := [[("Vendor Name", "Acme Media"), ("Severity", "HIGH")]] }

/-- A historical report lacking the `Vendor Name` column. -/
def reportNoVendorCol : CsvFile :=
  { name := "discrepancy_report_2.csv"
    columns := ["Source", "Severity"]
    rows := [[("Source", "Fuzzy Match"), ("Severity", "LOW")]] }

theorem floor_le_roundHalfEven (q : ℚ) : ⌊q⌋ ≤ roundHalfEven q := by
  unfold roundHalfEven
  split_ifs with h1 h2 h3
  · exact le_refl _
  · exact Int.floor_le_ceil q
  · exact le_refl _
  · omega

theorem roundHalfEven_le_ceil (q : ℚ) : roundHalfEven q ≤ ⌈q⌉ := by
  unfold roundHalfEven
  split_ifs with h1 h2 h3
  · exact Int.floor_le_ceil q
  · exact le_refl _
  · exact Int.floor_le_ceil q
  · have hq : (⌊q⌋ : ℚ) < q := by
      push_neg at h1
      linarith
    exact Int.add_one_le_iff.mpr (Int.lt_ceil.mpr hq)

theorem roundHalfEven_intCast (m : ℤ) : roundHalfEven (m : ℚ) = m := by
  unfold roundHalfEven
  rw [Int.floor_intCast]
  norm_num

theorem pyRound_nonneg (n : ℕ) (q : ℚ) (h : 0 ≤ q) : 0 ≤ pyRound n q := by
  unfold pyRound
  apply div_nonneg _ (by positivity)
  have h0 : (0:ℤ) ≤ ⌊q * 10 ^ n⌋ := Int.floor_nonneg.mpr (by positivity)
  have h1 := floor_le_roundHalfEven (q * 10 ^ n)
  exact_mod_cast le_trans h0 h1

theorem pyRound_le_int (n : ℕ) (q : ℚ) (m : ℤ) (h : q ≤ m) : pyRound n q ≤ m := by
  unfold pyRound
  rw [div_le_iff₀ (by positivity)]
  have h1 : roundHalfEven (q * 10 ^ n) ≤ ⌈q * 10 ^ n⌉ := roundHalfEven_le_ceil _
  have h2 : ⌈q * 10 ^ n⌉ ≤ m * 10 ^ n := by
    apply Int.ceil_le.mpr
    push_cast
    exact mul_le_mul_of_nonneg_right h (by positivity)
  calc ((roundHalfEven (q * 10 ^ n) : ℤ) : ℚ) ≤ ((⌈q * 10 ^ n⌉ : ℤ) : ℚ) := by
        exact_mod_cast h1
    _ ≤ ((m * 10 ^ n : ℤ) : ℚ) := by exact_mod_cast h2
    _ = (m : ℚ) * 10 ^ n := by push_cast; ring

theorem pyRound_intCast (n : ℕ) (m : ℤ) : pyRound n (m : ℚ) = m := by
  unfold pyRound
  have h : (m : ℚ) * 10 ^ n = ((m * 10 ^ n : ℤ) : ℚ) := by push_cast; ring
  rw [h, roundHalfEven_intCast]
  push_cast
  rw [mul_div_assoc, div_self (by positivity), mul_one]

theorem pyRound_zero (n : ℕ) : pyRound n 0 = 0 := by
  have h := pyRound_intCast n 0
  simpa using h

theorem pyRound_one (n : ℕ) : pyRound n 1 = 1 := by
  have h := pyRound_intCast n 1
  simpa using h

theorem numDiffPercent_comm (a b : ℚ) : numDiffPercent a b = numDiffPercent b a := by
  unfold numDiffPercent
  rw [abs_sub_comm, max_comm]

theorem numDiffPercent_nonneg (a b : ℚ) : 0 ≤ numDiffPercent a b := by
  unfold numDiffPercent
  split_ifs with h1 h2
  · exact le_refl 0
  · norm_num
  · have hb : 0 < max |a| |b| :=
      lt_of_le_of_ne (le_trans (abs_nonneg a) (le_max_left _ _)) (Ne.symm h1)
    have hd : 0 ≤ |a - b| := abs_nonneg _
    positivity

/-- C4: `get_discrepancy_severity` maps `d < 1` to LOW, `1 ≤ d < 5` to
MEDIUM, `5 ≤ d < 10` to HIGH and `10 ≤ d` to CRITICAL; in particular the
boundaries 1.0, 5.0 and 10.0 yield MEDIUM, HIGH and CRITICAL. -/
theorem claim4_severity_bands :
    (∀ d : ℚ, d < 1 → get_discrepancy_severity d = .LOW) ∧
    (∀ d : ℚ, 1 ≤ d → d < 5 → get_discrepancy_severity d = .MEDIUM) ∧
    (∀ d : ℚ, 5 ≤ d → d < 10 → get_discrepancy_severity d = .HIGH) ∧
    (∀ d : ℚ, 10 ≤ d → get_discrepancy_severity d = .CRITICAL) ∧
    get_discrepancy_severity 1 = .MEDIUM ∧
    get_discrepancy_severity 5 = .HIGH ∧
    get_discrepancy_severity 10 = .CRITICAL := by
  refine ⟨?_, ?_, ?_, ?_, by norm_num [get_discrepancy_severity],
    by norm_num [get_discrepancy_severity], by norm_num [get_discrepancy_severity]⟩
  · intro d h
    unfold get_discrepancy_severity
    rw [if_pos h]
  · intro d h1 h2
    unfold get_discrepancy_severity
    rw [if_neg (by linarith), if_pos h2]
  · intro d h1 h2
    unfold get_discrepancy_severity
    rw [if_neg (by linarith), if_neg (by linarith), if_pos h2]
  · intro d h
    unfold get_discrepancy_severity
    rw [if_neg (by linarith), if_neg (by linarith), if_neg (by linarith)]

theorem claim4_severity_bands_witness :
    get_discrepancy_severity (1/2) = .LOW :=
  claim4_severity_bands.1 (1/2) (by norm_num)

/-- C5 counterexample: the stored `difference_percent` is the formula
value rounded to two decimals, so at `(a, b) = (3, 2)` it is `33.33`,
not the exact `|3-2| / max(|3|,|2|) * 100 = 100/3`. -/
theorem claim5_counterexample :
    (fuzzy_number_match (some 3) (some 2) 5).difference_percent
        = some (3333/100) ∧
    (3333/100 : ℚ) ≠ |(3:ℚ) - 2| / max |(3:ℚ)| |(2:ℚ)| * 100 := by
  constructor
  · show some (pyRound 2 (numDiffPercent 3 2)) = some (3333/100)
    norm_num [numDiffPercent, pyRound, roundHalfEven]
  · norm_num

/-- C5 (amended): `fuzzy_number_match` is symmetric in its two numeric
inputs; its stored `difference_percent` equals
`|a-b| / max(|a|,|b|) * 100` **rounded to two decimals**, and is never
negative; both inputs zero give `0`, exactly one zero gives `100`; a
`None` on either side yields no-match with null difference and null
difference-percent. -/
theorem claim5_number_match_properties :
    (∀ (x y : Option ℚ) (t : ℚ),
        fuzzy_number_match x y t = fuzzy_number_match y x t) ∧
    (∀ (a b t : ℚ),
        (fuzzy_number_match (some a) (some b) t).difference_percent
          = some (pyRound 2 (numDiffPercent a b))) ∧
    (∀ a b : ℚ, max |a| |b| ≠ 0 →
        numDiffPercent a b = |a - b| / max |a| |b| * 100) ∧
    numDiffPercent 0 0 = 0 ∧
    (∀ b : ℚ, b ≠ 0 → numDiffPercent 0 b = 100) ∧
    (∀ (a b t : ℚ),
        0 ≤ (fuzzy_number_match (some a) (some b) t).difference_percent.getD 0) ∧
    (∀ (y : Option ℚ) (t : ℚ),
        fuzzy_number_match none y t
          = ⟨false, none, none, false⟩ ∧
        fuzzy_number_match y none t
          = ⟨false, none, none, false⟩) := by
  refine ⟨?_, ?_, ?_, by norm_num [numDiffPercent], ?_, ?_, ?_⟩
  · intro x y t
    match x, y with
    | some a, some b =>
      simp only [fuzzy_number_match, numDiffPercent_comm a b, abs_sub_comm a b]
    | some a, none => rfl
    | none, some b => rfl
    | none, none => rfl
  · intro a b t
    rfl
  · intro a b h
    unfold numDiffPercent
    rw [if_neg h]
  · intro b hb
    unfold numDiffPercent
    have h1 : |(0:ℚ) - b| = |b| := by rw [zero_sub, abs_neg]
    have h2 : max |(0:ℚ)| |b| = |b| := by
      rw [abs_zero]
      exact max_eq_right (abs_nonneg b)
    rw [h1, h2, if_neg (abs_ne_zero.mpr hb)]
    rw [div_self (abs_ne_zero.mpr hb), one_mul]
  · intro a b t
    have h : (fuzzy_number_match (some a) (some b) t).difference_percent
        = some (pyRound 2 (numDiffPercent a b)) := rfl
    rw [h]
    exact pyRound_nonneg 2 _ (numDiffPercent_nonneg a b)
  · intro y t
    constructor
    · match y with
      | some b => rfl
      | none => rfl
    · match y with
      | some b => rfl
      | none => rfl

theorem claim5_number_match_properties_witness :
    numDiffPercent 0 7 = 100 ∧
    numDiffPercent 6 4 = |(6:ℚ) - 4| / max |(6:ℚ)| |(4:ℚ)| * 100 := by
  constructor
  · exact claim5_number_match_properties.2.2.2.2.1 7 (by norm_num)
  · exact claim5_number_match_properties.2.2.1 6 4 (by norm_num)

theorem fuzzy_string_match_bounds (sim : String → String → ℚ)
    (hsim : ∀ a b, 0 ≤ sim a b ∧ sim a b ≤ 1) :
    ∀ x y, 0 ≤ fuzzy_string_match sim x y ∧ fuzzy_string_match sim x y ≤ 1 := by
  intro x y
  cases x <;> cases y <;> simp only [fuzzy_string_match] <;>
    first
      | exact ⟨le_refl 0, by norm_num⟩
      | exact hsim _ _

theorem numDiffPercent_self (v : ℚ) : numDiffPercent v v = 0 := by
  unfold numDiffPercent
  split_ifs with h1 h2
  · rfl
  · simp at h2
  · simp

/-- A similarity-independent fact: if a similarity value is the constant
`0` branch (`None` on either side), `fuzzy_string_match` never consults
`sim`. -/
theorem fuzzy_string_match_none_left (sim : String → String → ℚ) (y : Option String) :
    fuzzy_string_match sim none y = 0 := by
  match y with
  | some s => rfl
  | none => rfl

theorem numerical_fields_weight_pos :
    ∀ fw ∈ numerical_fields, (0:ℚ) < fw.2.2 := by
  intro fw hfw
  simp only [numerical_fields, List.mem_cons, List.not_mem_nil, or_false] at hfw
  rcases hfw with h | h | h | h | h | h <;> subst h <;> norm_num

theorem text_fields_weight_pos :
    ∀ fw ∈ text_fields, (0:ℚ) < fw.2.2 := by
  intro fw hfw
  simp only [text_fields, List.mem_cons, List.not_mem_nil, or_false] at hfw
  rcases hfw with h | h | h <;> subst h <;> norm_num

theorem compareNumericField_score_mem (nt : ℚ) (e m : LineItem)
    (fw : String × (LineItem → Option ℚ) × ℚ)
    (hnt0 : 0 ≤ nt) (hnt1 : nt ≤ 100) :
    ∀ x ∈ (compareNumericField nt e m fw).1,
      (0 ≤ x.2.1 ∧ x.2.1 ≤ 1) ∧ x.2.2 = fw.2.2 := by
  intro x hx
  cases he : fw.2.1 e with
  | none => simp [compareNumericField, he] at hx
  | some ev =>
    cases hm : fw.2.1 m with
    | none => simp [compareNumericField, he, hm] at hx
    | some mv =>
      simp only [compareNumericField, he, hm, fuzzy_number_match] at hx
      by_cases hw : numDiffPercent ev mv ≤ nt
      · simp only [hw, decide_True, if_true, List.mem_singleton] at hx
        subst hx
        have hdp0 : 0 ≤ pyRound 2 (numDiffPercent ev mv) :=
          pyRound_nonneg 2 _ (numDiffPercent_nonneg ev mv)
        have hdp100 : pyRound 2 (numDiffPercent ev mv) ≤ 100 := by
          have h100 := pyRound_le_int 2 (numDiffPercent ev mv) 100 (by
            push_cast
            linarith)
          exact_mod_cast h100
        refine ⟨⟨?_, ?_⟩, rfl⟩
        · simp only [Option.getD_some]
          linarith
        · simp only [Option.getD_some]
          linarith
      · simp [hw] at hx

theorem compareTextField_score_mem (sim : String → String → ℚ)
    (hsim : ∀ a b, 0 ≤ sim a b ∧ sim a b ≤ 1) (st : ℚ) (e m : LineItem)
    (fw : String × (LineItem → Option String) × ℚ) :
    ∀ x ∈ (compareTextField sim st e m fw).1,
      (0 ≤ x.2.1 ∧ x.2.1 ≤ 1) ∧ x.2.2 = fw.2.2 := by
  intro x hx
  unfold compareTextField at hx
  split_ifs at hx with h1 h2
  · simp only [List.mem_singleton] at hx
    subst hx
    exact ⟨fuzzy_string_match_bounds sim hsim _ _, rfl⟩
  · simp at hx
  · simp at hx

theorem scoresOf_entry_bounds (sim : String → String → ℚ)
    (hsim : ∀ a b, 0 ≤ sim a b ∧ sim a b ≤ 1) (st nt : ℚ) (e m : LineItem)
    (hnt0 : 0 ≤ nt) (hnt1 : nt ≤ 100) :
    ∀ x ∈ scoresOf sim st nt e m, (0 ≤ x.2.1 ∧ x.2.1 ≤ 1) ∧ 0 < x.2.2 := by
  intro x hx
  unfold scoresOf at hx
  simp only [List.mem_append] at hx
  rcases hx with ((hc | hio) | hn) | ht
  · unfold campaignPart at hc
    split_ifs at hc with h
    · simp only [List.mem_singleton] at hc
      subst hc
      exact ⟨fuzzy_string_match_bounds sim hsim _ _, by norm_num⟩
    · simp at hc
  · unfold ioPart at hio
    split_ifs at hio with h
    · simp only [List.mem_singleton] at hio
      subst hio
      exact ⟨fuzzy_string_match_bounds sim hsim _ _, by norm_num⟩
    · simp at hio
  · simp only [List.mem_flatten, List.mem_map] at hn
    obtain ⟨l, ⟨p, ⟨fw, hfw, rfl⟩, rfl⟩, hxl⟩ := hn
    obtain ⟨hb, hw⟩ := compareNumericField_score_mem nt e m fw hnt0 hnt1 x hxl
    exact ⟨hb, hw ▸ numerical_fields_weight_pos fw hfw⟩
  · simp only [List.mem_flatten, List.mem_map] at ht
    obtain ⟨l, ⟨p, ⟨fw, hfw, rfl⟩, rfl⟩, hxl⟩ := ht
    obtain ⟨hb, hw⟩ := compareTextField_score_mem sim hsim st e m fw x hxl
    exact ⟨hb, hw ▸ text_fields_weight_pos fw hfw⟩

theorem weighted_sum_bounds (l : List (String × ℚ × ℚ))
    (h : ∀ x ∈ l, (0 ≤ x.2.1 ∧ x.2.1 ≤ 1) ∧ 0 < x.2.2) (hne : l ≠ []) :
    0 ≤ (l.map (fun s => s.2.1 * s.2.2)).sum / (l.map (fun s => s.2.2)).sum ∧
    (l.map (fun s => s.2.1 * s.2.2)).sum / (l.map (fun s => s.2.2)).sum ≤ 1 := by
  have hwpos : 0 < (l.map (fun s => s.2.1 * s.2.2)).sum
      / (l.map (fun s => s.2.2)).sum ∨ True := Or.inr trivial
  have hden : 0 < (l.map (fun s => s.2.2)).sum := by
    apply List.sum_pos
    · intro w hw
      simp only [List.mem_map] at hw
      obtain ⟨x, hx, rfl⟩ := hw
      exact (h x hx).2
    · simp only [ne_eq, List.map_eq_nil_iff]
      exact hne
  have hnum : 0 ≤ (l.map (fun s => s.2.1 * s.2.2)).sum := by
    apply List.sum_nonneg
    intro q hq
    simp only [List.mem_map] at hq
    obtain ⟨x, hx, rfl⟩ := hq
    exact mul_nonneg (h x hx).1.1 (le_of_lt (h x hx).2)
  have hle : (l.map (fun s => s.2.1 * s.2.2)).sum ≤ (l.map (fun s => s.2.2)).sum := by
    apply List.sum_le_sum
    intro x hx
    exact mul_le_of_le_one_left (le_of_lt (h x hx).2) (h x hx).1.2
  exact ⟨div_nonneg hnum (le_of_lt hden), (div_le_one hden).mpr hle⟩

theorem compareNumericField_self (nt : ℚ) (x : LineItem)
    (fw : String × (LineItem → Option ℚ) × ℚ) (hnt0 : 0 ≤ nt) :
    (compareNumericField nt x x fw).2.2 = [] ∧
    ∀ e ∈ (compareNumericField nt x x fw).1, e.2.1 = 1 := by
  cases hv : fw.2.1 x with
  | none => simp [compareNumericField, hv]
  | some v =>
    simp only [compareNumericField, hv, fuzzy_number_match, numDiffPercent_self]
    have ht : decide ((0:ℚ) ≤ nt) = true := by simp [hnt0]
    simp only [ht, if_true]
    refine ⟨trivial, ?_⟩
    intro e he
    simp only [List.mem_singleton] at he
    subst he
    simp [pyRound_zero]

theorem compareTextField_self (sim : String → String → ℚ)
    (hrefl : ∀ a, sim a a = 1) (st : ℚ) (hst0 : 0 < st) (hst1 : st ≤ 1)
    (x : LineItem) (fw : String × (LineItem → Option String) × ℚ) :
    (compareTextField sim st x x fw).2.2 = [] ∧
    ∀ e ∈ (compareTextField sim st x x fw).1, e.2.1 = 1 := by
  cases hv : fw.2.1 x with
  | none =>
    simp only [compareTextField, hv, fuzzy_string_match]
    rw [if_neg (not_le.mpr hst0), if_neg (by norm_num)]
    simp
  | some s =>
    simp only [compareTextField, hv, fuzzy_string_match, hrefl]
    rw [if_pos hst1]
    refine ⟨rfl, ?_⟩
    intro e he
    simp only [List.mem_singleton] at he
    subst he
    rfl

theorem campaignPart_self (sim : String → String → ℚ)
    (hrefl : ∀ a, sim a a = 1) (st : ℚ) (hst0 : 0 < st) (hst1 : st ≤ 1)
    (x : LineItem) :
    (∀ e ∈ (campaignPart sim st x x).1, e.2.1 = 1) ∧
    (∀ s, x.campaign_name = some s →
      (campaignPart sim st x x).1
        = [("campaign_name", 1, 3)]) := by
  constructor
  · intro e he
    unfold campaignPart at he
    split_ifs at he with h
    · simp only [List.mem_singleton] at he
      subst he
      cases hv : x.campaign_name with
      | none =>
        rw [hv, fuzzy_string_match_none_left] at h
        exact absurd h (not_le.mpr hst0)
      | some s => simp [fuzzy_string_match, hv, hrefl]
    · simp at he
  · intro s hs
    unfold campaignPart
    simp only [hs, fuzzy_string_match, hrefl]
    rw [if_pos hst1]

theorem ioPart_self (sim : String → String → ℚ)
    (hrefl : ∀ a, sim a a = 1) (x : LineItem) :
    ∀ e ∈ (ioPart sim x x).1, e.2.1 = 1 := by
  intro e he
  unfold ioPart at he
  split_ifs at he with h
  · simp only [List.mem_singleton] at he
    subst he
    cases hv : x.insertion_order_id with
    | none =>
      rw [hv, fuzzy_string_match_none_left] at h
      exact absurd h (not_le.mpr (by norm_num))
    | some s => simp [fuzzy_string_match, hv, hrefl]
  · simp at he

theorem scoresOf_self_ones (sim : String → String → ℚ)
    (hrefl : ∀ a, sim a a = 1) (st nt : ℚ)
    (hst0 : 0 < st) (hst1 : st ≤ 1) (hnt0 : 0 ≤ nt) (x : LineItem) :
    ∀ e ∈ scoresOf sim st nt x x, e.2.1 = 1 := by
  intro e he
  unfold scoresOf at he
  simp only [List.mem_append] at he
  rcases he with ((hc | hio) | hn) | ht
  · exact (campaignPart_self sim hrefl st hst0 hst1 x).1 e hc
  · exact ioPart_self sim hrefl x e hio
  · simp only [List.mem_flatten, List.mem_map] at hn
    obtain ⟨l, ⟨p, ⟨fw, hfw, rfl⟩, rfl⟩, hel⟩ := hn
    exact (compareNumericField_self nt x fw hnt0).2 e hel
  · simp only [List.mem_flatten, List.mem_map] at ht
    obtain ⟨l, ⟨p, ⟨fw, hfw, rfl⟩, rfl⟩, hel⟩ := ht
    exact (compareTextField_self sim hrefl st hst0 hst1 x fw).2 e hel

theorem discsOf_self_nil (sim : String → String → ℚ)
    (hrefl : ∀ a, sim a a = 1) (st nt : ℚ)
    (hst0 : 0 < st) (hst1 : st ≤ 1) (hnt0 : 0 ≤ nt) (x : LineItem) :
    discsOf sim st nt x x = [] := by
  unfold discsOf
  rw [List.append_eq_nil]
  constructor
  · rw [List.flatten_eq_nil_iff]
    intro l hl
    simp only [List.mem_map] at hl
    obtain ⟨p, ⟨fw, hfw, rfl⟩, rfl⟩ := hl
    exact (compareNumericField_self nt x fw hnt0).1
  · rw [List.flatten_eq_nil_iff]
    intro l hl
    simp only [List.mem_map] at hl
    obtain ⟨p, ⟨fw, hfw, rfl⟩, rfl⟩ := hl
    exact (compareTextField_self sim hrefl st hst0 hst1 x fw).1

/-- C7 counterexample: (i) with `number_tolerance = 200` (the claim
quantifies over every configuration) the pair `booked_impressions = 5`
vs `-5` is within tolerance with `difference_percent = 200`, so its
contribution is `1 - 200/100 = -1` and `overall_score = -1 ∉ [0,1]`;
(ii) for the identical all-`None` pair (all fields equal) no field
contributes, so `overall_score = 0 ≠ 1`. -/
theorem claim7_counterexample :
    (compare_line_items_fuzzy simZero itemBookedFive itemBookedNegFive
        (8/10) 200).overall_score = -1 ∧
    itemAllNone = itemAllNone ∧
    (compare_line_items_fuzzy simZero itemAllNone itemAllNone
        (8/10) 5).overall_score = 0 := by
  refine ⟨?_, rfl, ?_⟩
  · show pyRound 3 _ = -1
    norm_num [scoresOf, campaignPart, ioPart, numerical_fields, text_fields,
      compareNumericField, compareTextField, fuzzy_number_match,
      fuzzy_string_match, numDiffPercent, simZero,
      itemBookedFive, itemBookedNegFive, pyRound, roundHalfEven]
  · show pyRound 3 _ = 0
    norm_num [scoresOf, campaignPart, ioPart, numerical_fields, text_fields,
      compareNumericField, compareTextField, fuzzy_number_match,
      fuzzy_string_match, numDiffPercent, simZero, itemAllNone,
      pyRound, roundHalfEven]

/-- C7 (amended): provided the similarity primitive has range `[0,1]`
(true of difflib's ratio) and the configured `number_tolerance` lies in
`[0, 100]`, every `overall_score` lies in `[0,1]`; when no field
contributes (`field_scores = []`) the score is `0.0`; and an identical
pair with a non-null `campaign_name`, a reflexive similarity primitive
and `string_threshold ∈ (0, 1]` scores exactly `1.0` with an empty
discrepancy list.  (The unamended claim fails for tolerances above 100
and for identical pairs all of whose fields are null.) -/
theorem claim7_overall_score_bounds (sim : String → String → ℚ)
    (hsim : ∀ a b, 0 ≤ sim a b ∧ sim a b ≤ 1)
    (st nt : ℚ) (hnt0 : 0 ≤ nt) (hnt1 : nt ≤ 100) :
    (∀ e m : LineItem,
      0 ≤ (compare_line_items_fuzzy sim e m st nt).overall_score ∧
      (compare_line_items_fuzzy sim e m st nt).overall_score ≤ 1) ∧
    (∀ e m : LineItem,
      (compare_line_items_fuzzy sim e m st nt).field_scores = [] →
      (compare_line_items_fuzzy sim e m st nt).overall_score = 0) ∧
    (∀ x : LineItem, x.campaign_name ≠ none → (∀ a, sim a a = 1) →
      0 < st → st ≤ 1 →
      (compare_line_items_fuzzy sim x x st nt).overall_score = 1 ∧
      (compare_line_items_fuzzy sim x x st nt).discrepancies = []) := by
  refine ⟨?_, ?_, ?_⟩
  · intro e m
    show 0 ≤ pyRound 3 _ ∧ pyRound 3 _ ≤ 1
    by_cases hS : (scoresOf sim st nt e m).isEmpty
    · rw [if_pos hS, pyRound_zero]
      norm_num
    · rw [if_neg hS]
      have hne : scoresOf sim st nt e m ≠ [] := by
        intro hnil
        rw [hnil] at hS
        simp at hS
      have hb := weighted_sum_bounds (scoresOf sim st nt e m)
        (scoresOf_entry_bounds sim hsim st nt e m hnt0 hnt1) hne
      constructor
      · exact pyRound_nonneg 3 _ hb.1
      · have h1 := pyRound_le_int 3 _ 1 (by exact_mod_cast hb.2)
        exact_mod_cast h1
  · intro e m hfs
    have hS : scoresOf sim st nt e m = [] := by
      have hmap : (scoresOf sim st nt e m).map (fun s => (s.1, pyRound 2 s.2.1)) = [] := hfs
      exact List.map_eq_nil_iff.mp hmap
    show pyRound 3 _ = 0
    rw [if_pos (by rw [hS]; rfl)]
    exact pyRound_zero 3
  · intro x hcn hrefl hst0 hst1
    obtain ⟨s, hs⟩ := Option.ne_none_iff_exists'.mp hcn
    have hcamp := (campaignPart_self sim hrefl st hst0 hst1 x).2 s hs
    have hne : scoresOf sim st nt x x ≠ [] := by
      unfold scoresOf
      rw [hcamp]
      simp
    have hones := scoresOf_self_ones sim hrefl st nt hst0 hst1 hnt0 x
    constructor
    · show pyRound 3 _ = 1
      rw [if_neg (by simpa [List.isEmpty_iff] using hne)]
      have hmapeq : (scoresOf sim st nt x x).map (fun s => s.2.1 * s.2.2)
          = (scoresOf sim st nt x x).map (fun s => s.2.2) := by
        apply List.map_congr_left
        intro e he
        rw [hones e he, one_mul]
      rw [hmapeq]
      have hpos : 0 < ((scoresOf sim st nt x x).map (fun s => s.2.2)).sum := by
        apply List.sum_pos
        · intro w hw
          simp only [List.mem_map] at hw
          obtain ⟨y, hy, rfl⟩ := hw
          exact (scoresOf_entry_bounds sim hsim st nt x x hnt0 hnt1 y hy).2
        · simp only [ne_eq, List.map_eq_nil_iff]
          exact hne
      rw [div_self (ne_of_gt hpos)]
      exact pyRound_one 3
    · show discsOf sim st nt x x = []
      exact discsOf_self_nil sim hrefl st nt hst0 hst1 hnt0 x

theorem claim7_overall_score_bounds_witness :
    (0 ≤ (compare_line_items_fuzzy simEq itemBookedFive itemBookedNegFive
            (8/10) 5).overall_score ∧
      (compare_line_items_fuzzy simEq itemBookedFive itemBookedNegFive
            (8/10) 5).overall_score ≤ 1) ∧
    (compare_line_items_fuzzy simEq itemCampaignX itemCampaignX
        (8/10) 5).overall_score = 1 ∧
    (compare_line_items_fuzzy simEq itemCampaignX itemCampaignX
        (8/10) 5).discrepancies = [] := by
  have hsim : ∀ a b, 0 ≤ simEq a b ∧ simEq a b ≤ 1 := by
    intro a b
    unfold simEq
    split_ifs <;> norm_num
  have h := claim7_overall_score_bounds simEq hsim (8/10) 5 (by norm_num) (by norm_num)
  refine ⟨h.1 itemBookedFive itemBookedNegFive, ?_⟩
  exact h.2.2 itemCampaignX (by simp [itemCampaignX])
    (fun a => by simp [simEq]) (by norm_num) (by norm_num)

/-- C6 counterexample: at `(1_000_000, 950_000)` the code divides the
difference by `max(|a|,|b|) = 1_000_000`, giving exactly `5.0 %` — not
the `5.26 %` (= 50,000 / 950,000) the claim asserts — so the pair is
*within* the 5.0 tolerance: `billed_impressions` is counted as a matched
field and no discrepancy is recorded. -/
theorem claim6_counterexample :
    (fuzzy_number_match (some 1000000) (some 950000) 5).difference_percent
        = some 5 ∧
    (fuzzy_number_match (some 1000000) (some 950000) 5).within_tolerance = true ∧
    (compare_line_items_fuzzy simZero scenarioA_extracted scenarioA_mapping
        (8/10) 5).discrepancies = [] ∧
    "billed_impressions" ∈ (compare_line_items_fuzzy simZero scenarioA_extracted
        scenarioA_mapping (8/10) 5).matched_fields := by
  refine ⟨?_, ?_, ?_, ?_⟩
  · show some (pyRound 2 (numDiffPercent 1000000 950000)) = some 5
    norm_num [numDiffPercent, pyRound, roundHalfEven]
  · show decide (numDiffPercent 1000000 950000 ≤ 5) = true
    norm_num [numDiffPercent]
  · show discsOf simZero (8/10) 5 scenarioA_extracted scenarioA_mapping = []
    norm_num [discsOf, numerical_fields, text_fields, compareNumericField,
      compareTextField, fuzzy_number_match, fuzzy_string_match, numDiffPercent,
      simZero, scenarioA_extracted, scenarioA_mapping]
  · show "billed_impressions" ∈
      matchedOf simZero (8/10) 5 scenarioA_extracted scenarioA_mapping
    norm_num [matchedOf, campaignPart, ioPart, numerical_fields, text_fields,
      compareNumericField, compareTextField, fuzzy_number_match,
      fuzzy_string_match, numDiffPercent, simZero,
      scenarioA_extracted, scenarioA_mapping]

/-- C6 (amended): for Scenario A — extracted
`{campaign_name: "Summer Sale", billed_impressions: 1_000_000}` vs
mapping `{campaign_name: "Summer Sale", billed_impressions: 950_000}`
at tolerance 5.0 — the computed `difference_percent` is
`50_000 / max(1_000_000, 950_000) · 100 = 5.0`, which satisfies
`difference_percent ≤ tolerance`, so `billed_impressions` is a matched
field (score contribution `1 − 5/100 = 0.95`) and **no** discrepancy is
recorded, whatever the similarity primitive. -/
theorem claim6_scenarioA_matches (sim : String → String → ℚ) :
    numDiffPercent 1000000 950000 = 5 ∧
    (fuzzy_number_match (some 1000000) (some 950000) 5).within_tolerance = true ∧
    (compare_line_items_fuzzy sim scenarioA_extracted scenarioA_mapping
        (8/10) 5).discrepancies = [] ∧
    "billed_impressions" ∈ (compare_line_items_fuzzy sim scenarioA_extracted
        scenarioA_mapping (8/10) 5).matched_fields ∧
    ("billed_impressions", 1 - pyRound 2 (numDiffPercent 1000000 950000) / 100, 5/2)
      ∈ scoresOf sim (8/10) 5 scenarioA_extracted scenarioA_mapping := by
  refine ⟨by norm_num [numDiffPercent], ?_, ?_, ?_, ?_⟩
  · show decide (numDiffPercent 1000000 950000 ≤ 5) = true
    norm_num [numDiffPercent]
  · show discsOf sim (8/10) 5 scenarioA_extracted scenarioA_mapping = []
    norm_num [discsOf, numerical_fields, text_fields, compareNumericField,
      compareTextField, fuzzy_number_match, fuzzy_string_match, numDiffPercent,
      scenarioA_extracted, scenarioA_mapping]
  · show "billed_impressions" ∈
      matchedOf sim (8/10) 5 scenarioA_extracted scenarioA_mapping
    norm_num [matchedOf, campaignPart, ioPart, numerical_fields, text_fields,
      compareNumericField, compareTextField, fuzzy_number_match,
      fuzzy_string_match, numDiffPercent, scenarioA_extracted, scenarioA_mapping]
  · norm_num [scoresOf, campaignPart, ioPart, numerical_fields, text_fields,
      compareNumericField, compareTextField, fuzzy_number_match,
      fuzzy_string_match, numDiffPercent, scenarioA_extracted, scenarioA_mapping]

theorem specBestCandidate_cons_ne_none {α : Type} (score : α → ℚ)
    (x : α) (xs : List α) : specBestCandidate score (x :: xs) ≠ none := by
  cases h : specBestCandidate score xs with
  | none => simp [specBestCandidate, h]
  | some d =>
    simp only [specBestCandidate, h]
    split_ifs <;> simp

theorem foldl_stepBest_spec (sim : String → String → ℚ) (st nt : ℚ)
    (e : LineItem) (l : List (MappingRecord × LineItem))
    (b : Option BestMatch) (s : ℚ) :
    l.foldl (stepBest sim st nt e) (b, s) =
      (specBestCandidate (candScore sim st nt e) l).elim (b, s)
        (fun c =>
          if s < candScore sim st nt e c
          then (some (mkBestMatch sim st nt e c), candScore sim st nt e c)
          else (b, s)) := by
  induction l generalizing b s with
  | nil => rfl
  | cons x xs ih =>
    rw [List.foldl_cons]
    have hstep : stepBest sim st nt e (b, s) x
        = if s < candScore sim st nt e x
          then (some (mkBestMatch sim st nt e x), candScore sim st nt e x)
          else (b, s) := rfl
    rw [hstep]
    cases hsel : specBestCandidate (candScore sim st nt e) xs with
    | none =>
      have hxs : xs = [] := by
        cases xs with
        | nil => rfl
        | cons y ys => exact absurd hsel (specBestCandidate_cons_ne_none _ y ys)
      subst hxs
      simp only [specBestCandidate, List.foldl_nil, Option.elim_some]
      try (split_ifs <;> rfl)
    | some d =>
      have hcons : specBestCandidate (candScore sim st nt e) (x :: xs)
          = if candScore sim st nt e x < candScore sim st nt e d
            then some d else some x := by
        simp only [specBestCandidate, hsel]
      by_cases hxd : candScore sim st nt e x < candScore sim st nt e d
      · rw [hcons, if_pos hxd, Option.elim_some]
        by_cases hsx : s < candScore sim st nt e x
        · rw [if_pos hsx, ih, hsel, Option.elim_some]
          try (split_ifs <;> first | rfl | (exfalso; linarith))
        · rw [if_neg hsx, ih, hsel, Option.elim_some]
          try (split_ifs <;> first | rfl | (exfalso; linarith))
      · rw [hcons, if_neg hxd, Option.elim_some]
        by_cases hsx : s < candScore sim st nt e x
        · rw [if_pos hsx, ih, hsel, Option.elim_some]
          try (split_ifs <;> first | rfl | (exfalso; linarith))
        · rw [if_neg hsx, ih, hsel, Option.elim_some]
          try (split_ifs <;> first | rfl | (exfalso; linarith))

theorem nested_foldl_eq_candList (sim : String → String → ℚ) (st nt : ℚ)
    (e : LineItem) (mapping_data : List MappingRecord)
    (acc : Option BestMatch × ℚ) :
    mapping_data.foldl
      (fun acc mapping =>
        mapping.line_items.foldl
          (fun acc map_item => stepBest sim st nt e acc (mapping, map_item)) acc)
      acc
      = (candList mapping_data).foldl (stepBest sim st nt e) acc := by
  induction mapping_data generalizing acc with
  | nil => rfl
  | cons m rest ih =>
    rw [List.foldl_cons, candList, List.flatMap_cons, List.foldl_append, ih]
    rw [List.foldl_map]
    rfl

theorem findBest_eq_foldl_candList (sim : String → String → ℚ) (st nt : ℚ)
    (e : LineItem) (mapping_data : List MappingRecord) :
    findBest sim st nt e mapping_data
      = (candList mapping_data).foldl (stepBest sim st nt e) (none, 0) := by
  unfold findBest
  exact nested_foldl_eq_candList sim st nt e mapping_data (none, 0)

theorem findBest_spec (sim : String → String → ℚ) (st nt : ℚ)
    (e : LineItem) (mapping_data : List MappingRecord) :
    findBest sim st nt e mapping_data
      = (specBestCandidate (candScore sim st nt e) (candList mapping_data)).elim
          (none, 0)
          (fun c =>
            if 0 < candScore sim st nt e c
            then (some (mkBestMatch sim st nt e c), candScore sim st nt e c)
            else (none, 0)) := by
  rw [findBest_eq_foldl_candList, foldl_stepBest_spec]

/-- Flattening a per-element list of at most one element is a
`filterMap`. -/
theorem flatten_map_eq_filterMap {α β : Type} (l : List α) (f : α → List β)
    (g : α → Option β) (h : ∀ a ∈ l, f a = (g a).toList) :
    (l.map f).flatten = l.filterMap g := by
  induction l with
  | nil => rfl
  | cons x xs ih =>
    rw [List.map_cons, List.flatten_cons, List.filterMap_cons]
    have hx := h x (List.mem_cons_self x xs)
    cases hg : g x with
    | none =>
      rw [hg] at hx
      simp only [Option.toList_none] at hx
      rw [hx, List.nil_append]
      exact ih (fun a ha => h a (List.mem_cons_of_mem x ha))
    | some b =>
      rw [hg] at hx
      simp only [Option.toList_some] at hx
      rw [hx, List.singleton_append]
      rw [ih (fun a ha => h a (List.mem_cons_of_mem x ha))]

theorem itemBuckets_fuzzy_spec (sim : String → String → ℚ) (st nt : ℚ)
    (md : List MappingRecord) (e : LineItem) :
    (itemBuckets sim st nt md e).1
      = ((specBestCandidate (candScore sim st nt e) (candList md)).bind
          (fun c => if 7/10 ≤ candScore sim st nt e c
                    then some (mkBestMatch sim st nt e c) else none)).toList ∧
    (itemBuckets sim st nt md e).2.1
      = ((specBestCandidate (candScore sim st nt e) (candList md)).bind
          (fun c => if 7/10 ≤ candScore sim st nt e c
                       ∧ (compare_line_items_fuzzy sim e c.2 st nt).discrepancies ≠ []
                    then some (mkBestMatch sim st nt e c,
                               (compare_line_items_fuzzy sim e c.2 st nt).discrepancies)
                    else none)).toList ∧
    (itemBuckets sim st nt md e).2.2
      = ((specBestCandidate (candScore sim st nt e) (candList md)).bind
          (fun c => if 0 < candScore sim st nt e c ∧ candScore sim st nt e c < 7/10
                    then some { extracted_line := e.line_id
                                campaign := e.campaign_name
                                insertion_order := e.insertion_order_id
                                best_score := candScore sim st nt e c
                                reason := "No strong match found in mapping files"
                                : NoMatchEntry }
                    else none)).toList := by
  unfold itemBuckets
  rw [findBest_spec]
  cases hsel : specBestCandidate (candScore sim st nt e) (candList md) with
  | none => simp
  | some c =>
    by_cases h07 : 7/10 ≤ candScore sim st nt e c
    · have h0 : 0 < candScore sim st nt e c := lt_of_lt_of_le (by norm_num) h07
      by_cases hd : (compare_line_items_fuzzy sim e c.2 st nt).discrepancies = []
      · simp [h0, h07, hd, mkBestMatch, not_lt.mpr h07]
      · simp [h0, h07, hd, mkBestMatch, not_lt.mpr h07]
    · by_cases h0 : 0 < candScore sim st nt e c
      · simp [h0, h07, mkBestMatch, lt_of_not_le h07]
      · simp [h0, h07]

/-- C1: for every extracted line item, `find_fuzzy_matches` evaluates the
full cross product of candidates (`candList`: mapping sources in order,
then their line items in order) and keeps the first-encountered candidate
with the strictly greatest rounded `overall_score`
(`specBestCandidate`); the item lands in `fuzzy_matches` exactly when
that best candidate scores `≥ 0.7` (in which case the stored entry is
the best-match dictionary for that candidate), and additionally in
`potential_discrepancies` exactly when that candidate's discrepancy list
is non-empty. -/
theorem claim1_best_match_selection (sim : String → String → ℚ)
    (ed : ExtractedData) (md : List MappingRecord) (st nt : ℚ) :
    (find_fuzzy_matches sim ed md st nt).fuzzy_matches
      = ed.line_items.filterMap (fun e =>
          (specBestCandidate (candScore sim st nt e) (candList md)).bind
            (fun c => if 7/10 ≤ candScore sim st nt e c
                      then some (mkBestMatch sim st nt e c) else none)) ∧
    (find_fuzzy_matches sim ed md st nt).potential_discrepancies
      = ed.line_items.filterMap (fun e =>
          (specBestCandidate (candScore sim st nt e) (candList md)).bind
            (fun c => if 7/10 ≤ candScore sim st nt e c
                         ∧ (compare_line_items_fuzzy sim e c.2 st nt).discrepancies ≠ []
                      then some (mkBestMatch sim st nt e c,
                                 (compare_line_items_fuzzy sim e c.2 st nt).discrepancies)
                      else none)) := by
  constructor
  · exact flatten_map_eq_filterMap ed.line_items _ _
      (fun e _ => (itemBuckets_fuzzy_spec sim st nt md e).1)
  · exact flatten_map_eq_filterMap ed.line_items _ _
      (fun e _ => (itemBuckets_fuzzy_spec sim st nt md e).2.1)

/-- C2 counterexample: with one extracted all-`None` item and exactly one
candidate (so "at least one candidate comparison" happened), the best
`overall_score` is `0.0 < 0.7`, yet the item is placed in **no** bucket —
`no_match_found` stays empty, because the strict `>` against the
initial `best_score = 0` never fires. -/
theorem claim2_counterexample :
    (candList [zeroScoreMapping]).length = 1 ∧
    (compare_line_items_fuzzy simZero itemAllNone itemAllNone
        (8/10) 5).overall_score = 0 ∧
    (find_fuzzy_matches simZero ⟨[itemAllNone]⟩ [zeroScoreMapping]
        (8/10) 5).no_match_found = [] ∧
    (find_fuzzy_matches simZero ⟨[itemAllNone]⟩ [zeroScoreMapping]
        (8/10) 5).fuzzy_matches = [] ∧
    (find_fuzzy_matches simZero ⟨[itemAllNone]⟩ [zeroScoreMapping]
        (8/10) 5).potential_discrepancies = [] := by
  have hscore : (compare_line_items_fuzzy simZero itemAllNone itemAllNone
      (8/10) 5).overall_score = 0 := by
    show pyRound 3 _ = 0
    norm_num [scoresOf, campaignPart, ioPart, numerical_fields, text_fields,
      compareNumericField, compareTextField, fuzzy_number_match,
      fuzzy_string_match, numDiffPercent, simZero, itemAllNone,
      pyRound, roundHalfEven]
  have hstep : findBest simZero (8/10) 5 itemAllNone [zeroScoreMapping]
      = (none, 0) := by
    unfold findBest zeroScoreMapping
    simp only [List.foldl_cons, List.foldl_nil]
    unfold stepBest candScore
    rw [hscore]
    norm_num
  refine ⟨rfl, hscore, ?_, ?_, ?_⟩
  all_goals
    show List.flatten _ = []
    simp only [List.map_cons, List.map_nil, List.flatten_cons, List.flatten_nil,
      List.append_nil]
    unfold itemBuckets
    rw [hstep]

/-- C2 (amended): an extracted item lands in `no_match_found` exactly
when its best candidate's score is strictly between `0` and `0.7`; when
there are zero candidates — and also in the unamended claim's missing
case, when every candidate scores exactly `0.0` — the item appears in
none of the three buckets.  In particular an empty candidate corpus
produces entirely empty results. -/
theorem claim2_unmatched_bucket (sim : String → String → ℚ)
    (ed : ExtractedData) (md : List MappingRecord) (st nt : ℚ) :
    ((find_fuzzy_matches sim ed md st nt).no_match_found
      = ed.line_items.filterMap (fun e =>
          (specBestCandidate (candScore sim st nt e) (candList md)).bind
            (fun c => if 0 < candScore sim st nt e c ∧ candScore sim st nt e c < 7/10
                      then some { extracted_line := e.line_id
                                  campaign := e.campaign_name
                                  insertion_order := e.insertion_order_id
                                  best_score := candScore sim st nt e c
                                  reason := "No strong match found in mapping files"
                                  : NoMatchEntry }
                      else none))) ∧
    (candList md = [] →
      find_fuzzy_matches sim ed md st nt
        = { fuzzy_matches := [], potential_discrepancies := [], no_match_found := [] }) := by
  constructor
  · exact flatten_map_eq_filterMap ed.line_items _ _
      (fun e _ => (itemBuckets_fuzzy_spec sim st nt md e).2.2)
  · intro hmd
    have hitem : ∀ e, itemBuckets sim st nt md e = ([], [], []) := by
      intro e
      unfold itemBuckets
      rw [findBest_spec, hmd]
      rfl
    unfold find_fuzzy_matches
    have h1 : ∀ e ∈ ed.line_items, (itemBuckets sim st nt md e).1 = (@none BestMatch).toList :=
      fun e _ => by rw [hitem e]; rfl
    have h2 : ∀ e ∈ ed.line_items, (itemBuckets sim st nt md e).2.1
        = (@none (BestMatch × List FieldDiscrepancy)).toList :=
      fun e _ => by rw [hitem e]; rfl
    have h3 : ∀ e ∈ ed.line_items, (itemBuckets sim st nt md e).2.2
        = (@none NoMatchEntry).toList :=
      fun e _ => by rw [hitem e]; rfl
    rw [ReconResults.mk.injEq]
    refine ⟨?_, ?_, ?_⟩
    · rw [flatten_map_eq_filterMap ed.line_items _ (fun _ => none) h1]
      exact List.filterMap_eq_nil_iff.mpr (fun a _ => rfl)
    · rw [flatten_map_eq_filterMap ed.line_items _ (fun _ => none) h2]
      exact List.filterMap_eq_nil_iff.mpr (fun a _ => rfl)
    · rw [flatten_map_eq_filterMap ed.line_items _ (fun _ => none) h3]
      exact List.filterMap_eq_nil_iff.mpr (fun a _ => rfl)

theorem claim2_unmatched_bucket_witness :
    find_fuzzy_matches simZero ⟨[itemAllNone]⟩ [] (8/10) 5
      = { fuzzy_matches := [], potential_discrepancies := [], no_match_found := [] } :=
  (claim2_unmatched_bucket simZero ⟨[itemAllNone]⟩ [] (8/10) 5).2 rfl

theorem bumpSeverity_foldl (l : List FieldDiscrepancy) (c : SevCounts) :
    l.foldl (fun c fd => bumpSeverity c fd.severity) c =
      { critical := c.critical + l.countP (fun d => decide (d.severity = .CRITICAL))
        high := c.high + l.countP (fun d => decide (d.severity = .HIGH))
        medium := c.medium + l.countP (fun d => decide (d.severity = .MEDIUM))
        low := c.low + l.countP (fun d => decide (d.severity = .LOW)) } := by
  induction l generalizing c with
  | nil => simp [List.countP_nil]
  | cons fd rest ih =>
    rw [List.foldl_cons, ih]
    cases hs : fd.severity <;>
      simp [bumpSeverity, hs, List.countP_cons, SevCounts.mk.injEq] <;>
      omega

theorem countSeverities_go (pd : List (BestMatch × List FieldDiscrepancy))
    (c : SevCounts) :
    pd.foldl (fun c disc => disc.2.foldl (fun c fd => bumpSeverity c fd.severity) c) c =
      { critical := c.critical
          + ((pd.map Prod.snd).flatten).countP (fun d => decide (d.severity = .CRITICAL))
        high := c.high
          + ((pd.map Prod.snd).flatten).countP (fun d => decide (d.severity = .HIGH))
        medium := c.medium
          + ((pd.map Prod.snd).flatten).countP (fun d => decide (d.severity = .MEDIUM))
        low := c.low
          + ((pd.map Prod.snd).flatten).countP (fun d => decide (d.severity = .LOW)) } := by
  induction pd generalizing c with
  | nil => simp [List.countP_nil]
  | cons p rest ih =>
    rw [List.foldl_cons, bumpSeverity_foldl, ih]
    simp only [List.map_cons, List.flatten_cons, List.countP_append,
      SevCounts.mk.injEq]
    refine ⟨by omega, by omega, by omega, by omega⟩

theorem countSeverities_eq (pd : List (BestMatch × List FieldDiscrepancy)) :
    countSeverities pd =
      { critical := ((pd.map Prod.snd).flatten).countP (fun d => decide (d.severity = .CRITICAL))
        high := ((pd.map Prod.snd).flatten).countP (fun d => decide (d.severity = .HIGH))
        medium := ((pd.map Prod.snd).flatten).countP (fun d => decide (d.severity = .MEDIUM))
        low := ((pd.map Prod.snd).flatten).countP (fun d => decide (d.severity = .LOW)) } := by
  unfold countSeverities
  rw [countSeverities_go]
  simp

/-- C3: `calculate_trust_score` returns
`score = clamp(100 + Σ severityWeight·count + 2·(#matches with score ≥ 0.9), 0, 100)`
with weights CRITICAL −15, HIGH −8, MEDIUM −4, LOW −1 applied per
individual field-discrepancy occurrence;
`match_rate = round(100·highConfidence/totalMatches, 2)` and `0` when
there are no matches; and the score is monotonically non-increasing in
the CRITICAL count, all other inputs fixed. -/
theorem claim3_trust_score_formula :
    (∀ fm, (calculate_trust_score fm).score = specTrustScore fm) ∧
    (∀ fm, (calculate_trust_score fm).match_rate = specMatchRate fm) ∧
    (∀ fm1 fm2 : ReconResults,
      specSevCount fm1 .HIGH = specSevCount fm2 .HIGH →
      specSevCount fm1 .MEDIUM = specSevCount fm2 .MEDIUM →
      specSevCount fm1 .LOW = specSevCount fm2 .LOW →
      fm1.fuzzy_matches = fm2.fuzzy_matches →
      specSevCount fm1 .CRITICAL ≤ specSevCount fm2 .CRITICAL →
      (calculate_trust_score fm2).score ≤ (calculate_trust_score fm1).score) := by
  have key : ∀ fm, (calculate_trust_score fm).score = specTrustScore fm := by
    intro fm
    simp only [calculate_trust_score, specTrustScore]
    rw [pyRound_intCast, Int.cast_inj]
    rw [countSeverities_eq]
    simp only [SevCounts.get, List.map_cons, List.map_nil, List.sum_cons,
      List.sum_nil, severityWeight]
    unfold specSevCount specHighConfidence flatDiscrepancies
    simp only [List.countP_eq_length_filter]
    omega
  refine ⟨key, ?_, ?_⟩
  · intro fm
    simp only [calculate_trust_score, specMatchRate]
    unfold specHighConfidence
    rw [List.countP_eq_length_filter]
    rcases Nat.eq_zero_or_pos fm.fuzzy_matches.length with h | h
    · rw [if_neg (by omega), if_pos h]
    · rw [if_pos h, if_neg (by omega)]
      congr 1
      ring
  · intro fm1 fm2 hh hm hl hf hc
    rw [key, key]
    unfold specTrustScore
    have hs : specHighConfidence fm1 = specHighConfidence fm2 := by
      unfold specHighConfidence
      rw [hf]
    rw [hh, hm, hl, hs, Int.cast_le]
    have hmono : (100 + ((-15) * (specSevCount fm2 .CRITICAL : ℤ)
          + (-8) * specSevCount fm2 .HIGH + (-4) * specSevCount fm2 .MEDIUM
          + (-1) * specSevCount fm2 .LOW) + 2 * specHighConfidence fm2)
        ≤ (100 + ((-15) * (specSevCount fm1 .CRITICAL : ℤ)
          + (-8) * specSevCount fm2 .HIGH + (-4) * specSevCount fm2 .MEDIUM
          + (-1) * specSevCount fm2 .LOW) + 2 * specHighConfidence fm2) := by
      omega
    exact max_le_max (le_refl 0) (min_le_min (le_refl 100) hmono)

theorem claim3_trust_score_formula_witness :
    (calculate_trust_score
        { fuzzy_matches := [], no_match_found := [],
          potential_discrepancies := [(bmSample, [fdCritical, fdCritical])] }).score
      ≤ (calculate_trust_score
        { fuzzy_matches := [], no_match_found := [],
          potential_discrepancies := [(bmSample, [fdCritical])] }).score :=
  claim3_trust_score_formula.2.2
    { fuzzy_matches := [], no_match_found := [],
      potential_discrepancies := [(bmSample, [fdCritical])] }
    { fuzzy_matches := [], no_match_found := [],
      potential_discrepancies := [(bmSample, [fdCritical, fdCritical])] }
    rfl rfl rfl rfl (by norm_num [specSevCount, flatDiscrepancies, fdCritical,
      List.countP_cons, FieldDiscrepancy.severity])

/-- C10 (code bug): `parse_number` / `parse_currency` catch only
`ValueError` and `AttributeError`, but `float()` raises `TypeError` on a
list or dict value, which therefore propagates — contradicting the
never-raises contract.  `None`, booleans, numbers and failing strings
follow the claimed return-null behaviour. -/
theorem claim10_parse_never_raises_bug :
    parse_number (PyVal.list []) = .error .typeError ∧
    parse_currency (PyVal.list []) = .error .typeError ∧
    parse_number (PyVal.dict []) = .error .typeError ∧
    parse_currency (PyVal.dict []) = .error .typeError ∧
    parse_number PyVal.null = .ok none ∧
    parse_currency PyVal.null = .ok none ∧
    parse_number (PyVal.bool true) = .ok (some 1) ∧
    parse_number (PyVal.num 3) = .ok (some 3) := by
  exact ⟨rfl, rfl, rfl, rfl, rfl, rfl, rfl, rfl⟩

/-- C9 (code bug): on Scenario D's corpus — one valid report plus one
report lacking the `Vendor Name` column — `calculate_vendor_score` does
*not* complete: after skipping the malformed file during aggregation, the
`reports_analyzed` computation re-reads **every** file in the corpus and
subscripts `['Vendor Name']`, raising an uncaught `KeyError` on the
malformed one.  On the corpus containing only the valid report it
completes normally. -/
theorem claim9_vendor_score_keyerror :
    calculate_vendor_score none [.ok reportValid, .ok reportNoVendorCol]
      = .error .keyError ∧
    ∃ r, calculate_vendor_score none [.ok reportValid] = .ok r ∧
      r.message = none ∧ r.total_reports_analyzed = 1 := by
  constructor
  · rfl
  · exact ⟨_, rfl, rfl, rfl⟩
